import Mathlib

/-!
Verification of the PDB2PQR driver (`src/pdb2pqr/main.py`, function
`mainCommand`) against its natural-language specification.

The driver is embedded shallowly:

* `Args` is the parsed command-line namespace (`args`), with the fields
  `mainCommand` reads or writes.  The pH value is modelled as a rational.
* `World` packages the results of the external collaborators that are not
  part of this file's source: `utilities.getFFfile`, the success of `open`
  on companion files, the two format readers (`pdb.readPDB`,
  `cif.readCIF`) applied to the input file, and `run.runPDB2PQR`.
* `mainCommand` returns an `Outcome`: a `parser.error` abort
  (`configError`, `parseFatal`), an uncaught Python exception
  (`pyNameError` for the undefined name `isCIF` on line 106), the
  re-raised pipeline error (`pipelineError`), or `success` carrying the
  exact character sequence written to the output file.

File paths are lists of characters so that `pathlib.Path.suffix` can be
modelled precisely.
-/

namespace Pdb2pqr

/-- Result of a format reader: `pdb.readPDB` / `cif.readCIF` return a pair
`(pdblist, errlist)` of parsed records and per-record error strings. -/
structure ReadResult where
  pdblist : List String
  errlist : List String
deriving Repr, DecidableEq

/-- Payload of a successful `run.runPDB2PQR` call: the `results_dict`
entries that `mainCommand` extracts (lines 124-126). -/
structure RunOutput where
  header : List Char
  lines : List (List Char)
  missed_ligands : List String
deriving Repr, DecidableEq

/-- The command-line argument namespace `args`, restricted to the fields
`mainCommand` reads or writes.  `isCIF`, `outname` and
`active_extensions` are set by `mainCommand` itself (lines 95-98, 112,
116-119). -/
structure Args where
  assign_only : Bool
  clean : Bool
  debump : Bool
  opt : Bool
  usernames : Option (List Char)
  userff : Option (List Char)
  ff : Option String
  ph : ℚ
  pka_method : Option String
  pdb2pka_resume : Bool
  ligand : Option (List Char)
  neutraln : Bool
  neutralc : Bool
  input_pdb : List Char
  output_pqr : List Char
  whitespace : Bool
  apbs_input : Bool
  isCIF : Bool
  outname : List Char
  active_extensions : Option (List String)
deriving Repr, DecidableEq

/-- External collaborators of `mainCommand`, fixed for one invocation:
`getFFfile` is `utilities.getFFfile`; `openOk p` says whether `open(p)`
succeeds; `readPDB` / `readCIF` are the reader results on the input
file's text; `runResult` is `run.runPDB2PQR` on the given record list
and argument namespace (raising `PDB2PQRError msg` is `.error msg`). -/
structure World where
  getFFfile : Option String → String
  openOk : List Char → Bool
  readPDB : ReadResult
  readCIF : ReadResult
  runResult : List String → Args → Except String RunOutput

/-- Reasons `mainCommand` aborts before reading the structure file:
the `parser.error` calls of lines 59, 61, 63, 71, 83, 86, 89, plus the
two uncaught Python exceptions possible in that region (an `IOError`
from the unguarded `open` calls on lines 54 and 57, and the
`AttributeError` from `args.ff.lower()` on line 70 when `ff` is None). -/
inductive ConfigAbort where
  | ioErrorUsernames
  | ioErrorUserff
  | usernamesRequired
  | ffNotFound
  | phOutOfRange
  | attributeErrorFF
  | pdb2pkaRequiresParse
  | ligandNotFound
  | neutralnRequiresParse
  | neutralcRequiresParse
deriving Repr, DecidableEq

/-- Message template passed to `parser.error` for each configuration
abort (the two `py...`/`ioError...` constructors are uncaught exceptions
and carry the exception class name instead). -/
def ConfigAbort.message : ConfigAbort → String
  | .ioErrorUsernames => "IOError"
  | .ioErrorUserff => "IOError"
  | .usernamesRequired => "--usernames must be specified if using --userff"
  | .ffNotFound => "Unable to load parameter file for forcefield %s"
  | .phOutOfRange => "Specified pH (%s) is outside the range [1, 14] of this program"
  | .attributeErrorFF => "AttributeError"
  | .pdb2pkaRequiresParse => "PDB2PKA requires the PARSE force field."
  | .ligandNotFound => "Unable to find ligand file %s!"
  | .neutralnRequiresParse => "--neutraln option only works with PARSE forcefield!"
  | .neutralcRequiresParse => "--neutralc option only works with PARSE forcefield!"

/-- Model of the test `args.ff is None or args.ff.lower() != 'parse'`
being FALSE, i.e. the force field is present and is PARSE
(lines 85 and 88). -/
def ffIsParse : Option String → Bool
  | none => false
  | some f => f.toLower == "parse"

/-- Checks guarded by `if not args.clean:` (lines 51-63), in source
order: open `usernames` (line 52-54), open `userff` and require
`usernames` alongside it (lines 55-59), require a resolvable force-field
file (lines 60-61), require pH in range (lines 62-63).  The first
failing check aborts. -/
def notCleanAbort? (args : Args) (getFFfile : Option String → String)
    (openOk : List Char → Bool) : Option ConfigAbort :=
  (match args.usernames with
   | some u => if openOk u then none else some .ioErrorUsernames
   | none => none) <|>
  (match args.userff with
   | some f =>
       if openOk f then
         if args.usernames = none then some .usernamesRequired else none
       else some .ioErrorUserff
   | none => none) <|>
  (if getFFfile args.ff = "" then some .ffNotFound else none) <|>
  (if args.ph < 0 ∨ args.ph > 14 then some .phOutOfRange else none)

/-- The `pka_method` dispatch (lines 67-76).  Only the `pdb2pka` branch
can abort; with `ff = None` the expression `args.ff.lower()` raises an
`AttributeError` before the comparison. -/
def pkaAbort? (args : Args) : Option ConfigAbort :=
  if args.pka_method = some "pdb2pka" then
    match args.ff with
    | none => some .attributeErrorFF
    | some f => if f.toLower ≠ "parse" then some .pdb2pkaRequiresParse else none
  else none

/-- The ligand-file check (lines 78-83): `open` failure is caught and
turned into `parser.error`. -/
def ligandAbort? (args : Args) (openOk : List Char → Bool) : Option ConfigAbort :=
  match args.ligand with
  | some lg => if openOk lg then none else some .ligandNotFound
  | none => none

/-- The `--neutraln` / `--neutralc` force-field checks (lines 85-89). -/
def neutralAbort? (args : Args) : Option ConfigAbort :=
  (if args.neutraln && !ffIsParse args.ff then some .neutralnRequiresParse else none) <|>
  (if args.neutralc && !ffIsParse args.ff then some .neutralcRequiresParse else none)

/-- All validation performed before the input structure file is read
(lines 51-89), in source order; the checks of lines 51-63 are skipped
entirely in clean mode. -/
def configAbort? (args : Args) (getFFfile : Option String → String)
    (openOk : List Char → Bool) : Option ConfigAbort :=
  (if args.clean then none else notCleanAbort? args getFFfile openOk) <|>
  pkaAbort? args <|> ligandAbort? args openOk <|> neutralAbort? args

/-- Lines 47-49: assign-only or clean mode forces debumping and
optimization off. -/
def forceFlags (args : Args) : Args :=
  if args.assign_only || args.clean then
    { args with debump := false, opt := false }
  else args

/-- The final path component: model of `pathlib.PurePath.name`. -/
def pyName (p : List Char) : List Char :=
  (p.reverse.takeWhile (fun c => c ≠ '/')).reverse

/-- Model of `pathlib.PurePath.suffix`: with `i` the index of the last
dot of the name, the suffix is `name[i:]` when `0 < i < len(name) - 1`
and empty otherwise.  It is therefore either empty or starts with a
dot. -/
def pySuffix (p : List Char) : List Char :=
  let b := pyName p
  if b.contains '.' then
    let after := b.reverse.takeWhile (fun c => c ≠ '.')
    if 0 < b.length - 1 - after.length ∧ after.length ≠ 0 then
      '.' :: after.reverse
    else []
  else []

/-- Line 96: the condition `path.suffix.lower() == "cif"` selecting the
CIF reader. -/
def selectsCIF (p : List Char) : Bool :=
  (pySuffix p).map Char.toLower == "cif".data

/-- The argument mutations `mainCommand` performs before calling
`run.runPDB2PQR`: forced flags (lines 47-49), `args.isCIF`
(lines 95-98), `args.outname` (line 112) and `args.active_extensions`
defaulting (lines 116-119). -/
def argsSetup (args : Args) : Args :=
  let a := forceFlags args
  { a with
      isCIF := selectsCIF a.input_pdb,
      outname := a.output_pqr,
      active_extensions := some (a.active_extensions.getD []) }

/-- Line 139 / 142: the whitespace rewrite of an ATOM or HETATM record,
`line[0:6] + ' ' + line[6:16] + ' ' + line[16:38] + ' ' + line[38:46] +
' ' + line[46:]`. -/
def wsTransform (l : List Char) : List Char :=
  l.take 6 ++ ' ' :: ((l.take 16).drop 6 ++ ' ' ::
    ((l.take 38).drop 16 ++ ' ' :: ((l.take 46).drop 38 ++ ' ' :: l.drop 46)))

/-- Lines 136-150: the characters written to the output file for one
record of `lines`.  With `--whitespace`, ATOM and HETATM records are
rewritten; the `elif`-chain of lines 138-145 has no final `else`, so any
other record writes nothing.  Without `--whitespace`, a TER record is
skipped only for CIF input and every other record is written verbatim. -/
def writeLine (whitespace isCIF : Bool) (l : List Char) : List Char :=
  if whitespace then
    if l.take 4 = "ATOM".data then wsTransform l
    else if l.take 6 = "HETATM".data then wsTransform l
    else if l.take 3 = "TER".data ∧ isCIF then []
    else []
  else
    if l.take 3 = "TER".data ∧ isCIF then []
    else l

/-- Lines 133-153: full contents of the output file on a successful run:
the header, each record filtered/rewritten by `writeLine`, and a closing
line for CIF input. -/
def outputText (a : Args) (r : RunOutput) : List Char :=
  r.header ++ (r.lines.map (writeLine a.whitespace a.isCIF)).flatten ++
    (if a.isCIF then "#\n".data else [])

/-- Observable result of one `mainCommand` invocation. -/
inductive Outcome where
  | configError (e : ConfigAbort)
  | parseFatal (path : List Char)
  | pyNameError
  | pipelineError (msg : String)
  | success (written : List Char)
deriving Repr, DecidableEq

/-- Whether the outcome is one of the pre-parse aborts of lines 51-89. -/
def Outcome.isConfigError : Outcome → Bool
  | .configError _ => true
  | _ => false

/-- Lines 122-153: call `run.runPDB2PQR`; a raised `PDB2PQRError` is
logged and re-raised once (lines 127-129); otherwise the output file is
opened and written (lines 133-153). -/
def runStage (a : Args) (w : World) (pdblist : List String) : Outcome :=
  match w.runResult pdblist a with
  | .error e => .pipelineError e
  | .ok r => .success (outputText a r)

/-- Lines 92-153, after validation has passed: select the reader by
extension (lines 95-100), abort with `parser.error` when both the
record list and the error list are empty (lines 102-103), crash with a
`NameError` when the error list is non-empty — line 106 evaluates the
undefined bare name `isCIF` — and otherwise run the pipeline and write
the output. -/
def postConfig (args : Args) (w : World) : Outcome :=
  let a := argsSetup args
  let res := if a.isCIF then w.readCIF else w.readPDB
  if res.pdblist = [] ∧ res.errlist = [] then .parseFatal a.input_pdb
  else if res.errlist ≠ [] then .pyNameError
  else runStage a w res.pdblist

/-- The driver `mainCommand` (lines 36-165): force flags, validate the
configuration (first failing check aborts), then parse and run. -/
def mainCommand (args : Args) (w : World) : Outcome :=
  match configAbort? (forceFlags args) w.getFFfile w.openOk with
  | some e => .configError e
  | none => postConfig args w

/-! ### Concrete configurations and worlds used as test inputs -/

/-- A plain invocation: no clean/assign-only mode, no user files, PARSE
force field, pH 7, a PDB input that parses without errors. -/
def baseArgs : Args := {
  assign_only := false, clean := false, debump := true, opt := true,
  usernames := none, userff := none, ff := some "PARSE", ph := 7,
  pka_method := none, pdb2pka_resume := false, ligand := none,
  neutraln := false, neutralc := false,
  input_pdb := "prot.pdb".data, output_pqr := "prot.pqr".data,
  whitespace := false, apbs_input := false, isCIF := false,
  outname := [], active_extensions := none }

/-- A pipeline result with a header and no atom records. -/
def okRun : RunOutput :=
  { header := "REMARK 1\n".data, lines := [], missed_ligands := [] }

/-- Collaborators for a fully successful run. -/
def baseWorld : World := {
  getFFfile := fun _ => "dat/PARSE.DAT",
  openOk := fun _ => true,
  readPDB := { pdblist := ["ATOM 1"], errlist := [] },
  readCIF := { pdblist := [], errlist := [] },
  runResult := fun _ _ => .ok okRun }

/-- A world whose input parses to one record plus one recorded error. -/
def c1cxWorld : World :=
  { baseWorld with readPDB := { pdblist := ["ATOM 22"], errlist := ["bad line 3"] } }

/-- pH 15 outside clean mode. -/
def c2wArgs : Args := { baseArgs with ph := 15 }

/-- pH 15 inside clean mode. -/
def c2cxArgs : Args := { baseArgs with ph := 15, clean := true }

/-- Clean mode requested. -/
def c3cxArgs : Args := { baseArgs with clean := true }

/-- A world in which no force-field identifier resolves to a file. -/
def c3cxWorld : World := { baseWorld with getFFfile := fun _ => "" }

/-- A world whose input parses to one record and one error record. -/
def c5World : World :=
  { baseWorld with
      readPDB := { pdblist := ["ATOM      1  N   ALA A   1"],
                   errlist := ["HETATM bad record"] } }

/-- The whitespace option enabled. -/
def c6Args : Args := { baseArgs with whitespace := true }

/-- A pipeline result containing one ATOM record and one TER record. -/
def c6Run : RunOutput :=
  { header := "REMARK 2\n".data,
    lines := ["ATOM  1 N".data, "TER".data], missed_ligands := [] }

/-- Collaborators delivering `c6Run` from the pipeline. -/
def c6World : World := { baseWorld with runResult := fun _ _ => .ok c6Run }

/-- A world whose pipeline stage raises `PDB2PQRError`. -/
def c7World : World :=
  { baseWorld with runResult := fun _ _ => .error "PDB2PQRError: fatal" }

/-- Assign-only mode with debumping and optimization requested. -/
def c8Args : Args := { baseArgs with assign_only := true, debump := true, opt := true }

/-- A user force-field file supplied without a names file. -/
def c10Args : Args := { baseArgs with userff := some ("user.dat".data) }

/-- A full-width ATOM record (54 characters). -/
def atomLine : List Char :=
  "ATOM      1  N   ALA A   1      11.000  22.000  33.000".data

/-! ### Basic reduction lemmas -/

@[simp] theorem someOrElse {α : Type} (a : α) (b : Option α) :
    (some a <|> b) = some a := rfl

@[simp] theorem noneOrElse {α : Type} (b : Option α) :
    ((none : Option α) <|> b) = b := rfl

@[simp] theorem iteSomeOrElse {α : Type} (c : Prop) [Decidable c] (x : α)
    (y : Option α) :
    ((if c then some x else none) <|> y) = if c then some x else y := by
  split <;> simp

/-- Lines 47-49 touch only the `debump` and `opt` flags, so every check
of lines 51-89 sees the caller-supplied values of the other fields. -/
theorem notCleanAbort?_forceFlags (args : Args) (gf : Option String → String)
    (ok : List Char → Bool) :
    notCleanAbort? (forceFlags args) gf ok = notCleanAbort? args gf ok := by
  unfold forceFlags; split <;> rfl

theorem configAbort?_forceFlags (args : Args) (gf : Option String → String)
    (ok : List Char → Bool) :
    configAbort? (forceFlags args) gf ok = configAbort? args gf ok := by
  unfold forceFlags; split <;> rfl

theorem forceFlags_clean (args : Args) : (forceFlags args).clean = args.clean := by
  unfold forceFlags; split <;> rfl

theorem forceFlags_ph (args : Args) : (forceFlags args).ph = args.ph := by
  unfold forceFlags; split <;> rfl

/-- If the configuration validation finds a problem, the driver stops
with exactly that abort. -/
theorem mainCommand_of_configAbort {args : Args} {w : World} {e : ConfigAbort}
    (h : configAbort? args w.getFFfile w.openOk = some e) :
    mainCommand args w = .configError e := by
  unfold mainCommand
  rw [configAbort?_forceFlags, h]

/-- Once validation has passed, none of the later outcomes is a
configuration abort. -/
theorem postConfig_ne_configError (args : Args) (w : World) (e : ConfigAbort) :
    postConfig args w ≠ .configError e := by
  unfold postConfig runStage
  dsimp only
  split <;> split <;> (try split) <;> (try split) <;> simp

/-- Evaluation of the `if not args.clean:` checks when the companion
files open successfully: the three `parser.error` sites of lines 59, 61
and 63 fire in source order. -/
theorem notCleanAbort?_eval (args : Args) (gf : Option String → String)
    (ok : List Char → Bool)
    (h1 : ∀ u, args.usernames = some u → ok u = true)
    (h2 : ∀ f, args.userff = some f → ok f = true) :
    notCleanAbort? args gf ok =
      if args.userff ≠ none ∧ args.usernames = none then some .usernamesRequired
      else if gf args.ff = "" then some .ffNotFound
      else if args.ph < 0 ∨ args.ph > 14 then some .phOutOfRange
      else none := by
  rcases hu : args.usernames with _ | u <;> rcases hf : args.userff with _ | f <;>
    simp only [notCleanAbort?, hu, hf, noneOrElse, someOrElse]
  · simp
  · simp [h2 f hf]
  · simp [h1 u hu]
  · simp [h1 u hu, h2 f hf]

/-- The `pka_method` dispatch never reports the pH-range error. -/
theorem pkaAbort?_ne_ph (args : Args) :
    pkaAbort? args ≠ some .phOutOfRange := by
  unfold pkaAbort?
  split
  · rcases args.ff with _ | f
    · simp
    · dsimp only; split <;> simp
  · simp

/-- The ligand check never reports the pH-range error. -/
theorem ligandAbort?_ne_ph (args : Args) (ok : List Char → Bool) :
    ligandAbort? args ok ≠ some .phOutOfRange := by
  unfold ligandAbort?
  rcases args.ligand with _ | lg
  · simp
  · dsimp only; split <;> simp

/-- The neutral-termini checks never report the pH-range error. -/
theorem neutralAbort?_ne_ph (args : Args) :
    neutralAbort? args ≠ some .phOutOfRange := by
  unfold neutralAbort?
  split <;> split <;> simp

/-- The pH-range error of line 63 is only reached when the pH really is
out of range (and clean mode is off). -/
theorem configAbort?_ph_inv (args : Args) (gf : Option String → String)
    (ok : List Char → Bool)
    (h : configAbort? args gf ok = some .phOutOfRange) :
    args.clean = false ∧ (args.ph < 0 ∨ args.ph > 14) := by
  unfold configAbort? at h
  cases hc : args.clean
  · rw [hc] at h
    simp only [Bool.false_eq_true, if_false] at h
    cases hn : notCleanAbort? args gf ok with
    | some e =>
        rw [hn, someOrElse] at h
        cases h
        refine ⟨rfl, ?_⟩
        unfold notCleanAbort? at hn
        rcases hu : args.usernames with _ | u <;> rcases hf : args.userff with _ | f <;>
          rw [hu, hf] at hn <;> dsimp only at hn <;>
          split_ifs at hn <;> simp_all
    | none =>
        rw [hn, noneOrElse] at h
        rcases he : pkaAbort? args with _ | e
        · rw [he, noneOrElse] at h
          rcases hl : ligandAbort? args ok with _ | e2
          · rw [hl, noneOrElse] at h
            exact absurd h (neutralAbort?_ne_ph args)
          · rw [hl, someOrElse] at h
            cases h
            exact absurd hl (ligandAbort?_ne_ph args ok)
        · rw [he, someOrElse] at h
          cases h
          exact absurd he (pkaAbort?_ne_ph args)
  · rw [hc] at h
    simp only [if_true] at h
    rw [noneOrElse] at h
    rcases he : pkaAbort? args with _ | e
    · rw [he, noneOrElse] at h
      rcases hl : ligandAbort? args ok with _ | e2
      · rw [hl, noneOrElse] at h
        exact absurd h (neutralAbort?_ne_ph args)
      · rw [hl, someOrElse] at h
        cases h
        exact absurd hl (ligandAbort?_ne_ph args ok)
    · rw [he, someOrElse] at h
      cases h
      exact absurd he (pkaAbort?_ne_ph args)

/-- Inversion: a configuration-abort outcome can only come from the
validation of lines 51-89. -/
theorem configAbort?_of_mainCommand {args : Args} {w : World} {e : ConfigAbort}
    (h : mainCommand args w = .configError e) :
    configAbort? args w.getFFfile w.openOk = some e := by
  unfold mainCommand at h
  rw [configAbort?_forceFlags] at h
  cases hc : configAbort? args w.getFFfile w.openOk with
  | some a => rw [hc] at h; cases h; rfl
  | none =>
      rw [hc] at h
      exact absurd h (postConfig_ne_configError args w e)

/-! ### The extension test of line 96 -/

/-- A `pathlib` suffix is empty or carries its leading dot. -/
theorem pySuffix_nil_or_dot (p : List Char) :
    pySuffix p = [] ∨ ∃ t, pySuffix p = '.' :: t := by
  unfold pySuffix
  dsimp only
  split
  · split
    · exact Or.inr ⟨_, rfl⟩
    · exact Or.inl rfl
  · exact Or.inl rfl

/-- The comparison `path.suffix.lower() == "cif"` is false for every
path: a non-empty suffix starts with the dot, which survives
lower-casing, while the literal `"cif"` does not. -/
theorem selectsCIF_false (p : List Char) : selectsCIF p = false := by
  unfold selectsCIF
  rcases pySuffix_nil_or_dot p with h | ⟨t, h⟩ <;> rw [h]
  · decide
  · rw [List.map_cons]
    have hd : Char.toLower '.' = '.' := by decide
    rw [hd]
    rw [beq_eq_false_iff_ne]
    intro hEq
    have := List.head_eq_of_cons_eq hEq
    exact absurd this (by decide)

/-- Consequently line 98 never runs: `args.isCIF` is false on every
invocation that reaches the reader. -/
theorem argsSetup_isCIF (args : Args) : (argsSetup args).isCIF = false := by
  unfold argsSetup
  exact selectsCIF_false _

/-- With the CIF branch dead, the reader consulted is always
`pdb.readPDB` and lines 102-110 test its two lists. -/
theorem postConfig_eval (args : Args) (w : World) :
    postConfig args w =
      if w.readPDB.pdblist = [] ∧ w.readPDB.errlist = [] then
        .parseFatal (argsSetup args).input_pdb
      else if w.readPDB.errlist ≠ [] then .pyNameError
      else runStage (argsSetup args) w w.readPDB.pdblist := by
  unfold postConfig
  dsimp only
  rw [argsSetup_isCIF]
  rfl

/-- The run stage only produces a pipeline error or a success. -/
theorem runStage_cases (a : Args) (w : World) (pl : List String) :
    (∃ msg, runStage a w pl = .pipelineError msg) ∨
    (∃ out, runStage a w pl = .success out) := by
  unfold runStage
  cases w.runResult pl a
  · exact Or.inl ⟨_, rfl⟩
  · exact Or.inr ⟨_, rfl⟩

/-! ### Slice arithmetic for the whitespace rewrite (lines 139 and 142) -/

/-- Python slicing glue: `l[0:m] + l[m:n] = l[0:n]` for `m ≤ n`. -/
theorem take_drop_chain (l : List Char) (m n : ℕ) (h : m ≤ n) :
    l.take m ++ (l.take n).drop m = l.take n := by
  have hmin : (l.take n).take m = l.take m := by
    rw [List.take_take, Nat.min_eq_left h]
  calc l.take m ++ (l.take n).drop m
      = (l.take n).take m ++ (l.take n).drop m := by rw [hmin]
    _ = l.take n := List.take_append_drop m (l.take n)

/-- The slice concatenation `l[0:6] + l[6:16] + l[16:38] + l[38:46] +
l[46:]` reassembles any line. -/
theorem slice_concat (l : List Char) :
    l.take 6 ++ ((l.take 16).drop 6 ++ ((l.take 38).drop 16 ++
      ((l.take 46).drop 38 ++ l.drop 46))) = l := by
  rw [← List.append_assoc, take_drop_chain l 6 16 (by norm_num),
      ← List.append_assoc, take_drop_chain l 16 38 (by norm_num),
      ← List.append_assoc, take_drop_chain l 38 46 (by norm_num),
      List.take_append_drop]

/-- Removing the element sitting right after a block of known length. -/
theorem eraseIdx_concat {α : Type} (a : List α) (x : α) (b : List α) (n : ℕ)
    (h : a.length = n) :
    (a ++ x :: b).eraseIdx n = a ++ b := by
  subst h
  rw [List.eraseIdx_append_of_length_le (Nat.le_refl a.length), Nat.sub_self]
  rfl

/-- On a line of full record width, deleting the transformed line's
characters at offsets 6, 16, 38 and 46 undoes the whitespace insertion
exactly. -/
theorem ws_erase_recover (l : List Char) (h : 46 ≤ l.length) :
    ((((wsTransform l).eraseIdx 6).eraseIdx 16).eraseIdx 38).eraseIdx 46 = l := by
  have h6 : (l.take 6).length = 6 := by
    rw [List.length_take]; omega
  have h16 : (l.take 6 ++ (l.take 16).drop 6).length = 16 := by
    rw [List.length_append, List.length_drop, List.length_take, List.length_take]
    omega
  have h38 : ((l.take 6 ++ (l.take 16).drop 6) ++ (l.take 38).drop 16).length = 38 := by
    rw [List.length_append, h16, List.length_drop, List.length_take]
    omega
  have h46 : (((l.take 6 ++ (l.take 16).drop 6) ++ (l.take 38).drop 16) ++
      (l.take 46).drop 38).length = 46 := by
    rw [List.length_append, h38, List.length_drop, List.length_take]
    omega
  unfold wsTransform
  rw [eraseIdx_concat (l.take 6) ' ' _ 6 h6,
      ← List.append_assoc,
      eraseIdx_concat _ ' ' _ 16 h16,
      ← List.append_assoc,
      eraseIdx_concat _ ' ' _ 38 h38,
      ← List.append_assoc,
      eraseIdx_concat _ ' ' _ 46 h46,
      List.append_assoc, List.append_assoc, List.append_assoc]
  exact slice_concat l

/-! ### The claims -/

/-- Claim C4 (code bug): the claim says a file whose extension is `cif`
(case-insensitively) is parsed by the CIF reader with `isCIF` set.  In
the code, line 96 compares `path.suffix.lower()` — which is either empty
or starts with a dot, e.g. `".cif"` — against the dotless literal
`"cif"`, so the comparison is false for every path: even
`structure.cif` is handed to the legacy PDB reader with `isCIF` left
false. -/
theorem cif_selection_dead :
    selectsCIF ("structure.cif".data) = false ∧
    pySuffix ("structure.cif".data) = ".cif".data ∧
    (∀ p : List Char, selectsCIF p = false) ∧
    ∀ args : Args, (argsSetup args).isCIF = false :=
  ⟨by decide, by decide, selectsCIF_false, argsSetup_isCIF⟩

/-- Claim C5 (code bug): the claim says per-record errors are logged as
warnings and processing continues to the run stage.  In the code, as
soon as `errlist` is non-empty, line 106 evaluates the bare name
`isCIF`, which is undefined (line 95 set `args.isCIF`), so the driver
crashes with a `NameError` and never reaches `run.runPDB2PQR`: here a
file parsing to one record and one error ends in that crash. -/
theorem nonstandard_errlist_name_error :
    mainCommand baseArgs c5World = .pyNameError ∧
    c5World.readPDB.pdblist ≠ [] ∧ c5World.readPDB.errlist ≠ [] := by
  decide

/-- Claim C6 (code bug): the claim says every TER line from the pipeline
is written for non-CIF input, with and without the whitespace option.
Without `--whitespace` the TER record is written (second conjunct, and
the final run below), but the `--whitespace` branch of lines 137-145 has
no trailing `else`, so a TER record writes nothing (first conjunct): the
whitespace run's output contains only the header and the rewritten ATOM
record, the TER record having been silently dropped. -/
theorem ter_dropped_whitespace :
    writeLine true false ("TER".data) = [] ∧
    writeLine false false ("TER".data) = "TER".data ∧
    mainCommand c6Args c6World =
      .success ("REMARK 2\n".data ++ wsTransform ("ATOM  1 N".data)) ∧
    mainCommand baseArgs c6World =
      .success ("REMARK 2\n".data ++ ("ATOM  1 N".data ++ "TER".data)) := by
  decide

/-- Claim C1 (amended): once the configuration checks of lines 51-89
pass, the designed fatal parse error (`parser.error` on lines 102-103)
fires iff the reader returned zero parsed records AND zero per-record
errors; any input with a non-empty error list aborts with the unintended
`NameError` of line 106; and an input proceeds past parsing to the run
stage iff it has at least one parsed record and an empty error list.
(The reader consulted is always `pdb.readPDB`; see `cif_selection_dead`.)
The original claim — fatal iff zero parseable records, and every input
with a parseable record proceeds — is refuted by `parse_gate_cx`. -/
theorem parse_gate_amended (args : Args) (w : World)
    (hcfg : configAbort? args w.getFFfile w.openOk = none) :
    (mainCommand args w = .parseFatal (argsSetup args).input_pdb ↔
       w.readPDB.pdblist = [] ∧ w.readPDB.errlist = []) ∧
    (w.readPDB.errlist ≠ [] → mainCommand args w = .pyNameError) ∧
    (w.readPDB.pdblist ≠ [] → w.readPDB.errlist = [] →
       mainCommand args w = runStage (argsSetup args) w w.readPDB.pdblist) := by
  have hm : mainCommand args w = postConfig args w := by
    unfold mainCommand
    rw [configAbort?_forceFlags, hcfg]
  rw [hm, postConfig_eval]
  by_cases hboth : w.readPDB.pdblist = [] ∧ w.readPDB.errlist = []
  · rw [if_pos hboth]
    exact ⟨iff_of_true rfl hboth,
      fun he => absurd hboth.2 he,
      fun hp _ => absurd hboth.1 hp⟩
  · rw [if_neg hboth]
    by_cases herr : w.readPDB.errlist ≠ []
    · rw [if_pos herr]
      exact ⟨iff_of_false (by simp) hboth,
        fun _ => rfl,
        fun _ he => absurd he herr⟩
    · rw [if_neg herr]
      refine ⟨iff_of_false ?_ hboth, fun he => absurd he herr, fun _ _ => rfl⟩
      rcases runStage_cases (argsSetup args) w w.readPDB.pdblist with ⟨m, hr⟩ | ⟨o, hr⟩ <;>
        rw [hr] <;> simp

/-- Claim C1 counterexample: an input whose reader returns one parseable
record alongside one recorded error does NOT proceed past parsing — the
driver aborts (with the `NameError` of line 106) — refuting "any input
with at least one parseable record proceeds past parsing". -/
theorem parse_gate_cx :
    mainCommand baseArgs c1cxWorld = .pyNameError ∧
    c1cxWorld.readPDB.pdblist ≠ [] := by
  decide

/-- Claim C1 witness: on a concrete clean parse (one record, no errors)
the run proceeds to the run stage. -/
theorem parse_gate_witness :
    mainCommand baseArgs baseWorld =
      runStage (argsSetup baseArgs) baseWorld baseWorld.readPDB.pdblist :=
  (parse_gate_amended baseArgs baseWorld (by decide)).2.2 (by decide) (by decide)

/-- Claim C7 (confirmed): when the pipeline stage raises a
`PDB2PQRError`, the driver surfaces exactly that one top-level error
(lines 127-129) and never reaches the output-writing code of
lines 133-153 — the outcome is `pipelineError` and in particular not a
`success` carrying written output. -/
theorem pipeline_error_propagates (args : Args) (w : World) (msg : String)
    (hcfg : configAbort? args w.getFFfile w.openOk = none)
    (hne : w.readPDB.pdblist ≠ [])
    (herr : w.readPDB.errlist = [])
    (hrun : w.runResult w.readPDB.pdblist (argsSetup args) = .error msg) :
    mainCommand args w = .pipelineError msg ∧
    ∀ out, mainCommand args w ≠ .success out := by
  have hm : mainCommand args w = runStage (argsSetup args) w w.readPDB.pdblist := by
    have hpc : mainCommand args w = postConfig args w := by
      unfold mainCommand
      rw [configAbort?_forceFlags, hcfg]
    rw [hpc, postConfig_eval, if_neg (fun hcon => hne hcon.1),
        if_neg (fun hcon => hcon herr)]
  rw [hm]
  unfold runStage
  rw [hrun]
  exact ⟨rfl, fun out h => nomatch h⟩

/-- Claim C7 witness: a concrete pipeline failure yields exactly the
re-raised error and no success outcome. -/
theorem pipeline_error_witness :
    mainCommand baseArgs c7World = .pipelineError "PDB2PQRError: fatal" :=
  (pipeline_error_propagates baseArgs c7World _ (by decide) (by decide)
    (by decide) rfl).1

/-- Claim C8 (confirmed): when assign-only or clean mode is requested,
lines 47-49 force both the debumping and the optimization flags off,
whatever the caller supplied; `argsSetup` is the argument record the
driver hands to `run.runPDB2PQR`. -/
theorem forced_flags_assign_clean (args : Args)
    (h : args.assign_only = true ∨ args.clean = true) :
    (forceFlags args).debump = false ∧ (forceFlags args).opt = false ∧
    (argsSetup args).debump = false ∧ (argsSetup args).opt = false := by
  have hb : (args.assign_only || args.clean) = true := by
    rcases h with h | h <;> simp [h]
  unfold argsSetup forceFlags
  simp [hb]

/-- Claim C8 witness: assign-only with debump and opt both requested
still reaches the pipeline with both flags off. -/
theorem forced_flags_witness :
    (forceFlags c8Args).debump = false ∧ (forceFlags c8Args).opt = false ∧
    (argsSetup c8Args).debump = false ∧ (argsSetup c8Args).opt = false :=
  forced_flags_assign_clean c8Args (Or.inl rfl)

/-- Claim C9 (confirmed): for a line recognized as ATOM or HETATM, the
whitespace rewrite of lines 139/142 is exactly the insertion of one
space after each of the original column offsets 6, 16, 38 and 46; the
slice concatenation `line[0:6]+line[6:16]+line[16:38]+line[38:46]+line[46:]`
equals the line; and (for a line of full record width) deleting the four
inserted characters at offsets 6, 16, 38 and 46 recovers the original
line character for character. -/
theorem whitespace_insertion (b : Bool) (l : List Char)
    (h : l.take 4 = "ATOM".data ∨ l.take 6 = "HETATM".data) :
    writeLine true b l = wsTransform l ∧
    wsTransform l = l.take 6 ++ ' ' :: ((l.take 16).drop 6 ++ ' ' ::
      ((l.take 38).drop 16 ++ ' ' :: ((l.take 46).drop 38 ++ ' ' :: l.drop 46))) ∧
    l.take 6 ++ ((l.take 16).drop 6 ++ ((l.take 38).drop 16 ++
      ((l.take 46).drop 38 ++ l.drop 46))) = l ∧
    (46 ≤ l.length →
      ((((wsTransform l).eraseIdx 6).eraseIdx 16).eraseIdx 38).eraseIdx 46 = l) := by
  refine ⟨?_, rfl, slice_concat l, ws_erase_recover l⟩
  unfold writeLine
  rcases h with h | h
  · rw [if_pos rfl, if_pos h]
  · have h4 : l.take 4 ≠ "ATOM".data := by
      have ht : l.take 4 = (l.take 6).take 4 := by
        rw [List.take_take]
        norm_num
      rw [ht, h]
      decide
    rw [if_pos rfl, if_neg h4, if_pos h]

/-- Claim C9 witness: the rewrite and its inversion on a concrete
full-width ATOM record. -/
theorem whitespace_insertion_witness :
    writeLine true false atomLine = wsTransform atomLine ∧
    ((((wsTransform atomLine).eraseIdx 6).eraseIdx 16).eraseIdx 38).eraseIdx 46 =
      atomLine := by
  have h := whitespace_insertion false atomLine (Or.inl (by decide))
  exact ⟨h.1, h.2.2.2 (by decide)⟩

/-- Claim C10 (confirmed): outside clean mode, a user force-field file
that opens successfully but is not accompanied by a names file makes the
driver stop at line 59 with the configuration error
`--usernames must be specified if using --userff`, whatever the other
collaborators do — in particular before any structure processing. -/
theorem userff_requires_usernames (args : Args) (w : World) (f : List Char)
    (hc : args.clean = false)
    (huf : args.userff = some f)
    (hun : args.usernames = none)
    (hok : w.openOk f = true) :
    mainCommand args w = .configError .usernamesRequired ∧
    ConfigAbort.message .usernamesRequired =
      "--usernames must be specified if using --userff" ∧
    ∀ w' : World, w'.openOk f = true →
      mainCommand args w' = .configError .usernamesRequired := by
  have key : ∀ w' : World, w'.openOk f = true →
      mainCommand args w' = .configError .usernamesRequired := by
    intro w' hok'
    apply mainCommand_of_configAbort
    have hn := notCleanAbort?_eval args w'.getFFfile w'.openOk
      (fun u hu => by rw [hun] at hu; cases hu)
      (fun f' hf' => by rw [huf] at hf'; cases hf'; exact hok')
    unfold configAbort?
    rw [hc, if_neg Bool.false_ne_true, hn,
        if_pos ⟨by rw [huf]; simp, hun⟩, someOrElse]
  exact ⟨key w hok, rfl, key⟩

/-- Claim C10 witness: the concrete configuration with only `--userff`
supplied stops with exactly that error. -/
theorem userff_requires_usernames_witness :
    mainCommand c10Args baseWorld = .configError .usernamesRequired :=
  (userff_requires_usernames c10Args baseWorld ("user.dat".data) rfl rfl rfl rfl).1

/-- Claim C2 (amended): outside clean mode and with the companion files
openable, a pH outside [0, 14] makes the driver abort with one of the
`parser.error` configuration errors of lines 59, 61 and 63 (the pH error
itself when the earlier checks pass), and that abort depends only on the
configuration — the same outcome results for every reader/pipeline
collaborator, so no structure processing is attempted.  A pH inside
[0, 14] never produces the pH-range error.  The original claim — a fatal
error for EVERY configuration with pH outside [0, 14] — is refuted by
`ph_range_cx`: clean mode skips the check entirely (line 51). -/
theorem ph_range_amended (args : Args) (w : World)
    (h1 : ∀ u, args.usernames = some u → w.openOk u = true)
    (h2 : ∀ f, args.userff = some f → w.openOk f = true) :
    (args.clean = false → (args.ph < 0 ∨ args.ph > 14) →
       ∃ e, (e = ConfigAbort.usernamesRequired ∨ e = ConfigAbort.ffNotFound ∨
               e = ConfigAbort.phOutOfRange) ∧
         ∀ w' : World, w'.getFFfile = w.getFFfile → w'.openOk = w.openOk →
           mainCommand args w' = .configError e) ∧
    (0 ≤ args.ph → args.ph ≤ 14 →
       mainCommand args w ≠ .configError .phOutOfRange) := by
  constructor
  · intro hc hph
    have hn := notCleanAbort?_eval args w.getFFfile w.openOk h1 h2
    have key : ∃ e, (e = ConfigAbort.usernamesRequired ∨ e = ConfigAbort.ffNotFound ∨
        e = ConfigAbort.phOutOfRange) ∧
        notCleanAbort? args w.getFFfile w.openOk = some e := by
      rw [hn]
      by_cases hA : args.userff ≠ none ∧ args.usernames = none
      · exact ⟨ConfigAbort.usernamesRequired, Or.inl rfl, by rw [if_pos hA]⟩
      · rw [if_neg hA]
        by_cases hB : w.getFFfile args.ff = ""
        · exact ⟨ConfigAbort.ffNotFound, Or.inr (Or.inl rfl), by rw [if_pos hB]⟩
        · rw [if_neg hB]
          exact ⟨ConfigAbort.phOutOfRange, Or.inr (Or.inr rfl), by rw [if_pos hph]⟩
    obtain ⟨e, hmem, hval⟩ := key
    refine ⟨e, hmem, fun w' hg ho => ?_⟩
    apply mainCommand_of_configAbort
    rw [hg, ho]
    unfold configAbort?
    rw [hc, if_neg Bool.false_ne_true, hval, someOrElse]
  · intro hlo hhi hcon
    have hinv := configAbort?_ph_inv args w.getFFfile w.openOk
      (configAbort?_of_mainCommand hcon)
    rcases hinv.2 with hbad | hbad
    · exact absurd hlo (not_le.mpr hbad)
    · exact absurd hhi (not_le.mpr hbad)

/-- Claim C2 counterexample: pH 15 in clean mode raises no configuration
error at all — the structure is parsed and the run completes, refuting
"for every configuration whose target pH lies outside [0, 14] the
program reports a fatal configuration error". -/
theorem ph_range_cx :
    mainCommand c2cxArgs baseWorld = .success ("REMARK 1\n".data) ∧
    c2cxArgs.ph = 15 := by
  decide

/-- Claim C2 witness: pH 15 outside clean mode is a configuration
abort. -/
theorem ph_range_witness :
    (mainCommand c2wArgs baseWorld).isConfigError = true := by
  obtain ⟨e, -, hw⟩ :=
    (ph_range_amended c2wArgs baseWorld (fun u hu => nomatch hu)
      (fun f hf => nomatch hf)).1 rfl (Or.inr (by decide))
  rw [hw baseWorld rfl rfl]
  rfl

/-- Claim C3 (amended): outside clean mode and with the companion files
openable, a force-field identifier that resolves to no parameter file
makes the driver abort with a configuration error (the force-field error
of line 61 itself unless the `--userff`-without-`--usernames` error of
line 59 fires first), and the abort depends only on the configuration —
the same outcome results for every reader/pipeline collaborator, so it
is reported before the input structure file is read or parsed.  The
original claim — validation happens for EVERY configuration — is refuted
by `ff_validation_cx`: clean mode skips the check (line 51). -/
theorem ff_validation_amended (args : Args) (w : World)
    (hc : args.clean = false)
    (hff : w.getFFfile args.ff = "")
    (h1 : ∀ u, args.usernames = some u → w.openOk u = true)
    (h2 : ∀ f, args.userff = some f → w.openOk f = true) :
    (∃ e, (e = ConfigAbort.usernamesRequired ∨ e = ConfigAbort.ffNotFound) ∧
       ∀ w' : World, w'.getFFfile = w.getFFfile → w'.openOk = w.openOk →
         mainCommand args w' = .configError e) ∧
    (¬(args.userff ≠ none ∧ args.usernames = none) →
       mainCommand args w = .configError .ffNotFound) := by
  have hn := notCleanAbort?_eval args w.getFFfile w.openOk h1 h2
  have key : ∀ e, notCleanAbort? args w.getFFfile w.openOk = some e →
      ∀ w' : World, w'.getFFfile = w.getFFfile → w'.openOk = w.openOk →
        mainCommand args w' = .configError e := by
    intro e hval w' hg ho
    apply mainCommand_of_configAbort
    rw [hg, ho]
    unfold configAbort?
    rw [hc, if_neg Bool.false_ne_true, hval, someOrElse]
  constructor
  · by_cases hA : args.userff ≠ none ∧ args.usernames = none
    · exact ⟨ConfigAbort.usernamesRequired, Or.inl rfl,
        key _ (by rw [hn, if_pos hA])⟩
    · exact ⟨ConfigAbort.ffNotFound, Or.inr rfl,
        key _ (by rw [hn, if_neg hA, if_pos hff])⟩
  · intro hA
    exact key _ (by rw [hn, if_neg hA, if_pos hff]) w rfl rfl

/-- Claim C3 counterexample: in clean mode an unresolvable force-field
identifier raises no configuration error — the input is parsed and the
run completes, refuting "for every configuration the force-field file is
validated before structure processing". -/
theorem ff_validation_cx :
    mainCommand c3cxArgs c3cxWorld = .success ("REMARK 1\n".data) ∧
    c3cxWorld.getFFfile c3cxArgs.ff = "" := by
  decide

/-- Claim C3 witness: outside clean mode the unresolvable force field is
reported as a configuration error, for every reader/pipeline
collaborator. -/
theorem ff_validation_witness :
    mainCommand baseArgs c3cxWorld = .configError .ffNotFound :=
  (ff_validation_amended baseArgs c3cxWorld rfl rfl
    (fun u hu => nomatch hu) (fun f hf => nomatch hf)).2 (by decide)

end Pdb2pqr
